import Mathlib

/-
Verification of the hng-11-back-stage-2 authentication backend.

The data model (User, Organisation, UserOrganisation) follows the schema
declared in src/models/User.js and the rows exercised by src/tests/auth.spec.js.
The organisation-access helper getOrganisationData is embedded from its
definition in src/tests/auth.spec.js.  The controller (registerUser, loginUser),
the JWT helper (generateToken, verifyToken), the id helper and the bcrypt
hashing are not present under src/, so they are modelled from the spec, as
marked on each definition.
-/

namespace HngAuth

/-- A stored User row, following the schema of src/models/User.js:
userId, firstName, lastName, email, password are non-null strings, phone is
optional. -/
structure UserRow where
  userId : String
  firstName : String
  lastName : String
  email : String
  password : String
  phone : Option String
  deriving Repr, DecidableEq

/-- An Organisation row: orgId and name, as exercised by the tests. -/
structure OrganisationRow where
  orgId : String
  name : String
  deriving Repr, DecidableEq

/-- A UserOrganisation join row linking a userId to an orgId. -/
structure UserOrganisationRow where
  userId : String
  orgId : String
  deriving Repr, DecidableEq

/-- The database state: the three tables the application uses. -/
structure DB where
  users : List UserRow
  organisations : List OrganisationRow
  userOrganisations : List UserOrganisationRow
  deriving Repr, DecidableEq

/-- The empty database. -/
def DB.empty : DB := ⟨[], [], []⟩

/-- The error message thrown by getOrganisationData when the membership row
is missing, verbatim from src/tests/auth.spec.js. -/
def accessErrorMessage : String := "User does not have access to this organisation"

/-- Embedding of getOrganisationData from src/tests/auth.spec.js: findOne on
UserOrganisation with the given userId and orgId; if absent, throw the access
error; otherwise return the result of findOne on Organisation for that orgId
(which may be null). -/
def getOrganisationData (db : DB) (userId orgId : String) :
    Except String (Option OrganisationRow) :=
  match db.userOrganisations.find? (fun r => r.userId == userId && r.orgId == orgId) with
  | none => Except.error accessErrorMessage
  | some _ => Except.ok (db.organisations.find? (fun o => o.orgId == orgId))

/-- The token inner object: the user details placed under the userId key of
the payload. -/
structure TokenUserId where
  userId : String
  email : String
  deriving Repr, DecidableEq

/-- The decoded token payload. Modelled from the spec: src/utils/jwt.js is not
under src/; the spec states the payload shape is a userId object holding
userId and email, plus an exp timestamp. -/
structure TokenPayload where
  userId : TokenUserId
  exp : Nat
  deriving Repr, DecidableEq

/-- The user object handed to generateToken: userId and email, as in the
Token Generation test of src/tests/auth.spec.js. -/
structure AuthUser where
  userId : String
  email : String
  deriving Repr, DecidableEq

/-- Modelled from the spec: generateToken of src/utils/jwt.js is not under
src/. It signs a payload whose userId key holds the user details and whose
expiry is 1 hour (3600 seconds) from the moment of issuance, here the
parameter now in seconds. -/
def generateToken (user : AuthUser) (now : Nat) : TokenPayload :=
  ⟨⟨user.userId, user.email⟩, now + 3600⟩

/-- Modelled from the spec: verifyToken of src/utils/jwt.js is not under
src/. Verification succeeds, returning the payload, exactly when the token
has not yet expired. -/
def verifyToken (tok : TokenPayload) (now : Nat) : Option TokenPayload :=
  if now < tok.exp then some tok else none

/-- Modelled from the spec: password hashing is delegated to bcrypt, which is
not part of the repository. An abstract injective hash stands in for it. -/
def hashPassword (p : String) : String := "hashed:" ++ p

/-- Modelled from the spec: the login comparison of a candidate password with
a stored hash (bcrypt compare). -/
def checkPassword (p hash : String) : Bool := hashPassword p == hash

/-- One field-level validation error, the shape the register endpoint
returns in its errors list. -/
structure FieldError where
  field : String
  message : String
  deriving Repr, DecidableEq

/-- A registration request body: the four required fields and the optional
phone, each possibly absent. -/
structure RegisterRequest where
  firstName : Option String
  lastName : Option String
  email : Option String
  password : Option String
  phone : Option String
  deriving Repr, DecidableEq

/-- Modelled from the spec: the required-field validation of the register
controller (src/controllers/usersController.js is not under src/). Each
missing required field contributes one field-message pair, with the messages
asserted by src/tests/auth.spec.js. -/
def requiredFieldErrors (req : RegisterRequest) : List FieldError :=
  (if req.firstName.isNone then [⟨"firstName", "First name is required"⟩] else []) ++
  (if req.lastName.isNone then [⟨"lastName", "Last name is required"⟩] else []) ++
  (if req.email.isNone then [⟨"email", "Email is required"⟩] else []) ++
  (if req.password.isNone then [⟨"password", "Password is required"⟩] else [])

/-- The apostrophe character, used in the default organisation name. -/
def apostrophe : Char := Char.ofNat 39

/-- The default organisation name created at registration, from the spec and
the test: the first name followed by an apostrophe and the text s
Organisation. -/
def defaultOrgName (fn : String) : String :=
  fn ++ String.singleton apostrophe ++ "s Organisation"

/-- The data object of a successful auth response: the user and the signed
access token. -/
structure AuthData where
  user : UserRow
  accessToken : TokenPayload
  deriving Repr, DecidableEq

/-- The body of a register response: either an errors list (HTTP 422) or a
data object (HTTP 201). -/
inductive RegisterBody where
  | errors (errs : List FieldError)
  | data (d : AuthData)
  deriving Repr, DecidableEq

/-- A register response: HTTP status code and body. -/
structure RegisterResponse where
  status : Nat
  body : RegisterBody
  deriving Repr, DecidableEq

/-- Modelled from the spec: the register controller
(src/controllers/usersController.js is not under src/). Validate the four
required fields and return 422 with the errors list when any is missing;
otherwise, if the new email or the generated userId collides with an existing
User row (the uniqueness constraints of src/models/User.js, surfaced by the
ORM as a rejection of User.create), return 422 with an errors property;
otherwise hash the password, create the User row, the default Organisation
row and the UserOrganisation membership row, and return 201 with the user
data and a signed access token. freshUserId and freshOrgId stand for the ids
produced by the id helper; now is the issuance time in seconds. -/
def registerUser (db : DB) (req : RegisterRequest) (freshUserId freshOrgId : String)
    (now : Nat) : RegisterResponse × DB :=
  match req.firstName, req.lastName, req.email, req.password with
  | some fn, some ln, some em, some pw =>
    if db.users.any (fun u => u.email == em || u.userId == freshUserId) then
      (⟨422, RegisterBody.errors [⟨"registration", "Duplicate entry"⟩]⟩, db)
    else
      (⟨201, RegisterBody.data ⟨⟨freshUserId, fn, ln, em, hashPassword pw, req.phone⟩,
          generateToken ⟨freshUserId, em⟩ now⟩⟩,
       ⟨db.users ++ [⟨freshUserId, fn, ln, em, hashPassword pw, req.phone⟩],
        db.organisations ++ [⟨freshOrgId, defaultOrgName fn⟩],
        db.userOrganisations ++ [⟨freshUserId, freshOrgId⟩]⟩)
  | _, _, _, _ => (⟨422, RegisterBody.errors (requiredFieldErrors req)⟩, db)

/-- A login response: HTTP status code and the optional data object. -/
structure LoginResponse where
  status : Nat
  data : Option AuthData
  deriving Repr, DecidableEq

/-- Modelled from the spec: the login controller
(src/controllers/usersController.js is not under src/). Look up the user by
email; on a missing user or a failed password comparison return 401;
otherwise return 200 with the user data and a signed access token. -/
def loginUser (db : DB) (email password : String) (now : Nat) : LoginResponse :=
  match db.users.find? (fun u => u.email == email) with
  | none => ⟨401, none⟩
  | some u =>
    if checkPassword password u.password then
      ⟨200, some ⟨u, generateToken ⟨u.userId, u.email⟩ now⟩⟩
    else
      ⟨401, none⟩

/-- One column declaration of the User schema in src/models/User.js: its
name, whether null is permitted (sequelize defaults allowNull to true when it
is not declared), and the unique and primaryKey flags. -/
structure FieldSpec where
  name : String
  allowNull : Bool
  unique : Bool
  primaryKey : Bool
  deriving Repr, DecidableEq

/-- The User schema exactly as declared in src/models/User.js: userId is
unique, non-null and the primary key; firstName, lastName and password are
non-null; email is unique and non-null; phone carries no constraints, so
null is permitted. -/
def userSchema : List FieldSpec :=
  [⟨"userId", false, true, true⟩,
   ⟨"firstName", false, false, false⟩,
   ⟨"lastName", false, false, false⟩,
   ⟨"email", false, true, false⟩,
   ⟨"password", false, false, false⟩,
   ⟨"phone", true, false, false⟩]

/-- Pairwise distinctness of both email and userId across the User rows. -/
def uniqueUsers (db : DB) : Prop :=
  db.users.Pairwise (fun a b => a.email ≠ b.email ∧ a.userId ≠ b.userId)

/-- Database states reachable by the application: the empty database and
anything produced from a reachable state by a register call. (Login does not
write to the database.) -/
inductive Reachable : DB → Prop
  | base : Reachable DB.empty
  | register (db : DB) (req : RegisterRequest) (fid oid : String) (now : Nat) :
      Reachable db → Reachable (registerUser db req fid oid now).2

/-- A sample membership row used in concrete witnesses, matching the unit
test inputs. -/
def sampleUserOrg : UserOrganisationRow := ⟨"user123", "org123"⟩

/-- A sample organisation row used in concrete witnesses, matching the unit
test inputs. -/
def sampleOrg : OrganisationRow := ⟨"org123", "Test Org"⟩

/-- A database holding the sample membership and organisation rows. -/
def sampleDB : DB := ⟨[], [sampleOrg], [sampleUserOrg]⟩

/-- A database holding the sample membership row but no organisation row. -/
def danglingDB : DB := ⟨[], [], [sampleUserOrg]⟩

/-- C1. getOrganisationData throws the access error exactly when no
UserOrganisation row with the given userId and orgId exists; when such a
membership row exists it returns the result of the Organisation lookup for
that orgId. -/
theorem getOrganisationData_access (db : DB) (u o : String) :
    (getOrganisationData db u o = Except.error accessErrorMessage ↔
      ∀ r ∈ db.userOrganisations, ¬(r.userId = u ∧ r.orgId = o)) ∧
    ((∃ r ∈ db.userOrganisations, r.userId = u ∧ r.orgId = o) →
      getOrganisationData db u o =
        Except.ok (db.organisations.find? (fun org => org.orgId == o))) := by
  rcases hf : db.userOrganisations.find? (fun r => r.userId == u && r.orgId == o)
    with _ | r
  · have hnone : ∀ x ∈ db.userOrganisations, ¬(x.userId = u ∧ x.orgId = o) := by
      intro x hx
      have hx2 := List.find?_eq_none.mp hf x hx
      simpa using hx2
    refine ⟨⟨fun _ => hnone, fun _ => by simp [getOrganisationData, hf]⟩, ?_⟩
    rintro ⟨r, hr, hru, hro⟩
    exact absurd ⟨hru, hro⟩ (hnone r hr)
  · have hmem := List.mem_of_find?_eq_some hf
    have hp : r.userId = u ∧ r.orgId = o := by
      have := List.find?_some hf
      simpa using this
    constructor
    · constructor
      · intro h
        simp [getOrganisationData, hf] at h
      · intro hall
        exact absurd hp (hall r hmem)
    · intro _
      simp [getOrganisationData, hf]

/-- Witness for C1: on the sample database, a membership row for user123 and
org123 exists and the lookup returns the sample organisation row. -/
theorem getOrganisationData_access_witness :
    (∃ r ∈ sampleDB.userOrganisations, r.userId = "user123" ∧ r.orgId = "org123") ∧
    getOrganisationData sampleDB "user123" "org123" =
      Except.ok (sampleDB.organisations.find? (fun org => org.orgId == "org123")) :=
  ⟨by decide, (getOrganisationData_access sampleDB "user123" "org123").2 (by decide)⟩

/-- C9. When a membership row exists for the pair but no Organisation row
with that orgId exists, getOrganisationData does not throw: it returns the
empty result of the Organisation lookup. -/
theorem getOrganisationData_dangling (db : DB) (u o : String) (r : UserOrganisationRow)
    (hr : r ∈ db.userOrganisations) (hru : r.userId = u) (hro : r.orgId = o)
    (hnone : db.organisations.find? (fun org => org.orgId == o) = none) :
    getOrganisationData db u o = Except.ok none := by
  rcases hf : db.userOrganisations.find? (fun x => x.userId == u && x.orgId == o)
    with _ | x
  · exfalso
    have := List.find?_eq_none.mp hf r hr
    simp [hru, hro] at this
  · simp [getOrganisationData, hf, hnone]

/-- Witness for C9: a database with the membership row but no organisation
row, on which getOrganisationData returns an empty success. -/
theorem getOrganisationData_dangling_witness :
    (sampleUserOrg ∈ danglingDB.userOrganisations ∧
      sampleUserOrg.userId = "user123" ∧ sampleUserOrg.orgId = "org123" ∧
      danglingDB.organisations.find? (fun org => org.orgId == "org123") = none) ∧
    getOrganisationData danglingDB "user123" "org123" = Except.ok none :=
  ⟨by decide,
   getOrganisationData_dangling danglingDB "user123" "org123" sampleUserOrg
     (by decide) (by decide) (by decide) (by decide)⟩

/-- C2. Verifying the token produced by generateToken at issuance yields the
payload back; its inner userId and email equal the input user fields and its
expiry is 3600 seconds (1 hour) after the issuance time. -/
theorem generateToken_payload (user : AuthUser) (now : Nat) :
    (generateToken user now).userId.userId = user.userId ∧
    (generateToken user now).userId.email = user.email ∧
    (generateToken user now).exp = now + 3600 ∧
    verifyToken (generateToken user now) now = some (generateToken user now) := by
  refine ⟨rfl, rfl, rfl, ?_⟩
  have h : now < now + 3600 := by omega
  simp [verifyToken, generateToken, h]

/-- C10. In the User schema, null is permitted exactly for the phone column:
the five columns userId, firstName, lastName, email and password are all
declared non-null, and phone is the only one left nullable. -/
theorem userSchema_allowNull :
    (userSchema.all (fun f => f.allowNull == (f.name == "phone")) = true) ∧
    (userSchema.filter (fun f => f.allowNull)).map (fun f => f.name) = ["phone"] ∧
    userSchema.map (fun f => f.name) =
      ["userId", "firstName", "lastName", "email", "password", "phone"] := by
  refine ⟨by decide, by decide, by decide⟩

/-- Helper: a register call either leaves the database unchanged (validation
failure or duplicate) or, when all four required fields are present and no
existing user shares the email or the fresh userId, appends exactly the new
User row, the default Organisation row and the membership row. -/
theorem registerUser_db_cases (db : DB) (req : RegisterRequest)
    (fid oid : String) (now : Nat) :
    (registerUser db req fid oid now).2 = db ∨
    ∃ fn ln em pw, req.firstName = some fn ∧ req.lastName = some ln ∧
      req.email = some em ∧ req.password = some pw ∧
      db.users.any (fun u => u.email == em || u.userId == fid) = false ∧
      (registerUser db req fid oid now).2 =
        ⟨db.users ++ [⟨fid, fn, ln, em, hashPassword pw, req.phone⟩],
         db.organisations ++ [⟨oid, defaultOrgName fn⟩],
         db.userOrganisations ++ [⟨fid, oid⟩]⟩ := by
  obtain ⟨f, l, e, p, ph⟩ := req
  rcases f with _ | fv <;> rcases l with _ | lv <;> rcases e with _ | ev <;>
    rcases p with _ | pv
  case some.some.some.some =>
    by_cases hdup : db.users.any (fun u => u.email == ev || u.userId == fid) = true
    · left
      simp [registerUser, hdup]
    · right
      simp only [Bool.not_eq_true] at hdup
      exact ⟨fv, lv, ev, pv, rfl, rfl, rfl, rfl, hdup, by simp [registerUser, hdup]⟩
  all_goals simp [registerUser]

/-- C4. When any required field is missing, register returns 422 with the
validation errors list, that list contains the field-message pair of every
missing field, and the database is unchanged (no user is created). -/
theorem register_missing_fields (db : DB) (req : RegisterRequest)
    (fid oid : String) (now : Nat)
    (hm : req.firstName = none ∨ req.lastName = none ∨ req.email = none ∨
      req.password = none) :
    (registerUser db req fid oid now).1.status = 422 ∧
    (registerUser db req fid oid now).1.body =
      RegisterBody.errors (requiredFieldErrors req) ∧
    (req.firstName = none →
      FieldError.mk "firstName" "First name is required" ∈ requiredFieldErrors req) ∧
    (req.lastName = none →
      FieldError.mk "lastName" "Last name is required" ∈ requiredFieldErrors req) ∧
    (req.email = none →
      FieldError.mk "email" "Email is required" ∈ requiredFieldErrors req) ∧
    (req.password = none →
      FieldError.mk "password" "Password is required" ∈ requiredFieldErrors req) ∧
    (registerUser db req fid oid now).2 = db := by
  obtain ⟨f, l, e, p, ph⟩ := req
  rcases f with _ | fv <;> rcases l with _ | lv <;> rcases e with _ | ev <;>
    rcases p with _ | pv <;> simp_all [registerUser, requiredFieldErrors]

/-- A sample register request missing every required field. -/
def emptyRequest : RegisterRequest := ⟨none, none, none, none, none⟩

/-- Witness for C4: registering with every required field missing yields 422,
all four field errors, and an unchanged database. -/
theorem register_missing_fields_witness :
    (emptyRequest.firstName = none ∨ emptyRequest.lastName = none ∨
      emptyRequest.email = none ∨ emptyRequest.password = none) ∧
    ((registerUser DB.empty emptyRequest "u1" "o1" 0).1.status = 422 ∧
     (registerUser DB.empty emptyRequest "u1" "o1" 0).1.body =
       RegisterBody.errors (requiredFieldErrors emptyRequest) ∧
     (emptyRequest.firstName = none →
       FieldError.mk "firstName" "First name is required" ∈
         requiredFieldErrors emptyRequest) ∧
     (emptyRequest.lastName = none →
       FieldError.mk "lastName" "Last name is required" ∈
         requiredFieldErrors emptyRequest) ∧
     (emptyRequest.email = none →
       FieldError.mk "email" "Email is required" ∈ requiredFieldErrors emptyRequest) ∧
     (emptyRequest.password = none →
       FieldError.mk "password" "Password is required" ∈
         requiredFieldErrors emptyRequest) ∧
     (registerUser DB.empty emptyRequest "u1" "o1" 0).2 = DB.empty) :=
  ⟨Or.inl rfl,
   register_missing_fields DB.empty emptyRequest "u1" "o1" 0 (Or.inl rfl)⟩

/-- C6. When all required fields are present but the email or the generated
userId collides with an existing User row, register returns 422 with an
errors body. -/
theorem register_duplicate (db : DB) (req : RegisterRequest) (fid oid : String)
    (now : Nat) (fn ln em pw : String)
    (hf : req.firstName = some fn) (hl : req.lastName = some ln)
    (he : req.email = some em) (hp : req.password = some pw)
    (hdup : db.users.any (fun u => u.email == em || u.userId == fid) = true) :
    (registerUser db req fid oid now).1.status = 422 ∧
    ∃ errs, (registerUser db req fid oid now).1.body = RegisterBody.errors errs := by
  obtain ⟨f, l, e, p, ph⟩ := req
  simp only at hf hl he hp
  subst hf hl he hp
  simp [registerUser, hdup]

/-- A valid register request with all fields present, matching the end to end
test input. -/
def johnRequest : RegisterRequest :=
  ⟨some "John", some "Doe", some "john@example.com", some "password123",
   some "1234567890"⟩

/-- A stored User row matching the end to end test input. -/
def johnRow : UserRow :=
  ⟨"john-id", "John", "Doe", "john@example.com", hashPassword "password123",
   some "1234567890"⟩

/-- A database already holding the John row, used to exercise the duplicate
branch. -/
def dbWithJohn : DB := ⟨[johnRow], [], []⟩

/-- Witness for C6: registering the same email again against a database that
already holds it yields 422 with an errors body. -/
theorem register_duplicate_witness :
    (johnRequest.firstName = some "John" ∧ johnRequest.lastName = some "Doe" ∧
      johnRequest.email = some "john@example.com" ∧
      johnRequest.password = some "password123" ∧
      dbWithJohn.users.any
        (fun u => u.email == "john@example.com" || u.userId == "u2") = true) ∧
    ((registerUser dbWithJohn johnRequest "u2" "o2" 0).1.status = 422 ∧
     ∃ errs, (registerUser dbWithJohn johnRequest "u2" "o2" 0).1.body =
       RegisterBody.errors errs) :=
  ⟨by decide,
   register_duplicate dbWithJohn johnRequest "u2" "o2" 0 "John" "Doe"
     "john@example.com" "password123" rfl rfl rfl rfl (by decide)⟩

/-- C7. When all required fields are present and there is no collision,
register returns 201 with a data body carrying the registered user fields
and the signed access token. -/
theorem register_success (db : DB) (req : RegisterRequest) (fid oid : String)
    (now : Nat) (fn ln em pw : String)
    (hf : req.firstName = some fn) (hl : req.lastName = some ln)
    (he : req.email = some em) (hp : req.password = some pw)
    (hnd : db.users.any (fun u => u.email == em || u.userId == fid) = false) :
    registerUser db req fid oid now =
      (⟨201, RegisterBody.data ⟨⟨fid, fn, ln, em, hashPassword pw, req.phone⟩,
          generateToken ⟨fid, em⟩ now⟩⟩,
       ⟨db.users ++ [⟨fid, fn, ln, em, hashPassword pw, req.phone⟩],
        db.organisations ++ [⟨oid, defaultOrgName fn⟩],
        db.userOrganisations ++ [⟨fid, oid⟩]⟩) := by
  obtain ⟨f, l, e, p, ph⟩ := req
  simp only at hf hl he hp
  subst hf hl he hp
  simp [registerUser, hnd]

/-- Witness for C7: registering John against the empty database yields 201
with his user data and an access token. -/
theorem register_success_witness :
    (johnRequest.firstName = some "John" ∧ johnRequest.lastName = some "Doe" ∧
      johnRequest.email = some "john@example.com" ∧
      johnRequest.password = some "password123" ∧
      DB.empty.users.any
        (fun u => u.email == "john@example.com" || u.userId == "john-id") = false) ∧
    registerUser DB.empty johnRequest "john-id" "org-id" 0 =
      (⟨201, RegisterBody.data ⟨⟨"john-id", "John", "Doe", "john@example.com",
          hashPassword "password123", johnRequest.phone⟩,
          generateToken ⟨"john-id", "john@example.com"⟩ 0⟩⟩,
       ⟨DB.empty.users ++ [⟨"john-id", "John", "Doe", "john@example.com",
          hashPassword "password123", johnRequest.phone⟩],
        DB.empty.organisations ++ [⟨"org-id", defaultOrgName "John"⟩],
        DB.empty.userOrganisations ++ [⟨"john-id", "org-id"⟩]⟩) :=
  ⟨by decide,
   register_success DB.empty johnRequest "john-id" "org-id" 0 "John" "Doe"
     "john@example.com" "password123" rfl rfl rfl rfl (by decide)⟩

/-- C3. A successful registration with fresh ids creates exactly one default
organisation named after the first name and exactly one membership row
linking the registered user to it: afterwards the membership rows for the
new userId are exactly the one created row, and the organisation rows with
the new orgId are exactly the one default organisation. -/
theorem register_default_org (db : DB) (req : RegisterRequest) (fid oid : String)
    (now : Nat) (fn ln em pw : String)
    (hf : req.firstName = some fn) (hl : req.lastName = some ln)
    (he : req.email = some em) (hp : req.password = some pw)
    (hnd : db.users.any (fun u => u.email == em || u.userId == fid) = false)
    (hfreshm : db.userOrganisations.filter (fun r => r.userId == fid) = [])
    (hfresho : db.organisations.filter (fun o2 => o2.orgId == oid) = []) :
    (registerUser db req fid oid now).1.status = 201 ∧
    (registerUser db req fid oid now).2.userOrganisations.filter
      (fun r => r.userId == fid) = [⟨fid, oid⟩] ∧
    (registerUser db req fid oid now).2.organisations.filter
      (fun o2 => o2.orgId == oid) = [⟨oid, defaultOrgName fn⟩] := by
  obtain ⟨f, l, e, p, ph⟩ := req
  simp only at hf hl he hp
  subst hf hl he hp
  simp [registerUser, hnd, List.filter_append, hfreshm, hfresho]

/-- Witness for C3: registering John on the empty database creates exactly
one membership row and one default organisation for him. -/
theorem register_default_org_witness :
    (johnRequest.firstName = some "John" ∧ johnRequest.lastName = some "Doe" ∧
      johnRequest.email = some "john@example.com" ∧
      johnRequest.password = some "password123" ∧
      DB.empty.users.any
        (fun u => u.email == "john@example.com" || u.userId == "john-id") = false ∧
      DB.empty.userOrganisations.filter (fun r => r.userId == "john-id") = [] ∧
      DB.empty.organisations.filter (fun o2 => o2.orgId == "org-id") = []) ∧
    ((registerUser DB.empty johnRequest "john-id" "org-id" 0).1.status = 201 ∧
     (registerUser DB.empty johnRequest "john-id" "org-id" 0).2.userOrganisations.filter
       (fun r => r.userId == "john-id") = [⟨"john-id", "org-id"⟩] ∧
     (registerUser DB.empty johnRequest "john-id" "org-id" 0).2.organisations.filter
       (fun o2 => o2.orgId == "org-id") = [⟨"org-id", defaultOrgName "John"⟩]) :=
  ⟨by decide,
   register_default_org DB.empty johnRequest "john-id" "org-id" 0 "John" "Doe"
     "john@example.com" "password123" rfl rfl rfl rfl (by decide) rfl rfl⟩

/-- C8. In every reachable database state, no two distinct User rows share an
email and no two share a userId: register refuses to insert when the new
email or userId collides with an existing row, so pairwise uniqueness is an
invariant of the system. -/
theorem reachable_uniqueUsers (db : DB) (h : Reachable db) : uniqueUsers db := by
  induction h with
  | base => exact List.Pairwise.nil
  | register db req fid oid now _ ih =>
    rcases registerUser_db_cases db req fid oid now with heq |
      ⟨fn, ln, em, pw, _, _, _, _, hnd, heq⟩
    · rw [uniqueUsers, heq]
      exact ih
    · rw [uniqueUsers, heq]
      rw [List.pairwise_append]
      refine ⟨ih, List.pairwise_singleton _ _, ?_⟩
      intro a ha b hb
      simp only [List.mem_singleton] at hb
      subst hb
      have hane := List.any_eq_false.mp hnd a ha
      simp only [Bool.or_eq_true, beq_iff_eq, not_or] at hane
      exact ⟨hane.1, hane.2⟩

/-- Witness for C8: the database after registering John from the empty state
is reachable and satisfies the uniqueness invariant. -/
theorem reachable_uniqueUsers_witness :
    uniqueUsers (registerUser DB.empty johnRequest "john-id" "org-id" 0).2 :=
  reachable_uniqueUsers _
    (Reachable.register DB.empty johnRequest "john-id" "org-id" 0 Reachable.base)

/-- C5. Login returns 401 when no User row has the given email; when a row
is found, a failed password comparison yields 401, and a successful one
yields 200 with the user data and a signed access token. -/
theorem login_spec (db : DB) (em pw : String) (now : Nat) :
    ((∀ u ∈ db.users, u.email ≠ em) → (loginUser db em pw now).status = 401) ∧
    (∀ u, db.users.find? (fun x => x.email == em) = some u →
      (checkPassword pw u.password = false → (loginUser db em pw now).status = 401) ∧
      (checkPassword pw u.password = true →
        loginUser db em pw now =
          ⟨200, some ⟨u, generateToken ⟨u.userId, u.email⟩ now⟩⟩)) := by
  constructor
  · intro hno
    have hf : db.users.find? (fun x => x.email == em) = none := by
      apply List.find?_eq_none.mpr
      intro x hx
      simpa using hno x hx
    simp [loginUser, hf]
  · intro u hu
    constructor
    · intro hbad
      simp [loginUser, hu, hbad]
    · intro hok
      simp [loginUser, hu, hok]

/-- A database holding exactly the John row, used to exercise the login
success branch. -/
def loginDB : DB := ⟨[johnRow], [], []⟩

/-- Witness for C5: John is found by email in loginDB and logging in with the
correct password returns 200 with his data and an access token. -/
theorem login_spec_witness :
    (loginDB.users.find? (fun x => x.email == "john@example.com") = some johnRow ∧
      checkPassword "password123" johnRow.password = true) ∧
    loginUser loginDB "john@example.com" "password123" 0 =
      ⟨200, some ⟨johnRow, generateToken ⟨johnRow.userId, johnRow.email⟩ 0⟩⟩ :=
  ⟨⟨by decide, by decide⟩,
   ((login_spec loginDB "john@example.com" "password123" 0).2 johnRow
     (by decide)).2 (by decide)⟩

end HngAuth
